import Mathlib

/-!
Verification of the `butternut` grading pipeline.

Shallow embedding of `src/main.rs` (a grading-automation CLI): paths are
component lists, the filesystem and child-process execution are supplied as
oracles, and every fallible Rust function returning `anyhow::Result` becomes a
Lean function returning `Except GradeErr _`.  The embedding mirrors the source
function by function; `grade` additionally returns the list of file lists it
passed to `compile`, in order, so that theorems can speak about which compile
attempts were made (the source makes those observable through `dbg!` lines and
the compiler invocations themselves).
-/

namespace Butternut

/-- Model of `std::path::PathBuf` / `std::path::Path`: an absoluteness flag and
a list of components. -/
structure FilePath where
  absolute : Bool
  components : List String
deriving DecidableEq, Repr

namespace FilePath

/-- Model of `PathBuf::push`: pushing an absolute path replaces the buffer,
pushing a relative path appends its components. -/
def push (p q : FilePath) : FilePath :=
  if q.absolute then q else ⟨p.absolute, p.components ++ q.components⟩

/-- Split a character list at `/` separators (the component decomposition
`Path::new` performs). -/
def splitComponents : List Char → List Char → List String
  | [], acc => [String.mk acc.reverse]
  | c :: cs, acc =>
    if c = '/' then String.mk acc.reverse :: splitComponents cs []
    else splitComponents cs (c :: acc)

/-- Model of `Path::new` on a string: leading `/` means absolute, components
are the non-empty `/`-separated pieces. -/
def ofString (s : String) : FilePath :=
  ⟨(match s.data with | '/' :: _ => true | _ => false),
   (splitComponents s.data []).filter (fun c => decide (c ≠ ""))⟩

/-- Rendering of a path back to the string handed to the child process's
argument vector. -/
def render (p : FilePath) : String :=
  (if p.absolute then "/" else "") ++ String.intercalate "/" p.components

end FilePath

/-- Filesystem oracle: `isFile` models `Path::is_file`, `isDir` models
directory-ness, `canon` models `Path::canonicalize` (`none` = the call returns
`Err`). -/
structure FS where
  isFile : FilePath → Bool
  isDir : FilePath → Bool
  canon : FilePath → Option FilePath

/-- A filesystem oracle is well formed when `canonicalize` succeeds exactly on
paths that exist (as a regular file or as a directory) — the behaviour of
`std::fs::canonicalize`. -/
def FS.WF (fs : FS) : Prop :=
  ∀ p, (fs.canon p).isSome ↔ (fs.isFile p = true ∨ fs.isDir p = true)

/-- Behaviour of one child-process invocation: whether `spawn` succeeds,
whether `wait` succeeds, and the exit code (`ExitStatus::success()` is exit
code `0`). -/
structure ProcBehavior where
  spawnOk : Bool
  waitOk : Bool
  exitCode : Nat
deriving DecidableEq, Repr

/-- Execution environment: the filesystem and the process oracle
(program name and argument vector to behaviour). -/
structure Env where
  fs : FS
  runProcess : String → List String → ProcBehavior

/-- The distinct failure sites of the program (in the source all of them are
`anyhow` errors; the constructors record the observable data at each site —
for `missingMandatoryFiles`, the missing paths printed at the failure site and
the task name carried in the error message). -/
inductive GradeErr where
  | noDelivery
  | missingMandatoryFiles (missing : List FilePath) (taskName : String)
  | compileSpawn
  | compileWait
  | compileNonZero (code : Nat)
  | testsSpawn
  | testsWait
  | testsNonZero (code : Nat)
deriving DecidableEq, Repr

/-- Mirror of `ProjectMeta` from the source (the `name` field is deserialized but never
read by the grading pipeline). -/
structure ProjectMeta where
  name : String
  code_name : String
  delivery_folder : FilePath
  grader_folder : FilePath
  compile_args_base : List String
  compile_args_tail : List String
deriving DecidableEq, Repr

/-- Mirror of `ProjectTask` from the source. -/
structure ProjectTask where
  name : String
  mandatory_files : List FilePath
  optional_files : List FilePath
  test_files : List FilePath
deriving DecidableEq, Repr

/-- Mirror of `ProjectTask::are_garding_files_present` (sic) from the source: true when
no test file is missing.  Note that the source checks `item.is_file()` on the
task-relative path itself, not joined onto any root, and that no caller of
this function exists in the source. -/
def ProjectTask.are_garding_files_present (t : ProjectTask) (fs : FS) : Bool :=
  !(t.test_files.any (fun item => !(fs.isFile item)))

/-- Mirror of `ProjectSpec` from the source. -/
structure ProjectSpec where
  meta : ProjectMeta
  tasks : List ProjectTask
deriving DecidableEq, Repr

/-- Mirror of `GradingOption` from the source: one task, the shared metadata, and the
computed submission root `repo`. -/
structure GradingOption where
  task : ProjectTask
  project : ProjectMeta
  repo : FilePath
deriving DecidableEq, Repr

namespace GradingOption

/-- The path built by `GradingOption::new` before canonicalization:
`delivery_folder` with `login` pushed, then `code_name` pushed. -/
def repoPath (project : ProjectMeta) (login : String) : FilePath :=
  (project.delivery_folder.push (FilePath.ofString login)).push
    (FilePath.ofString project.code_name)

/-- Mirror of `GradingOption::new`: builds `repo = delivery_folder / login / code_name`,
calls `canonicalize` on it with context "no delivery" (the `?` propagates its
failure), and stores `repo` — the result of `canonicalize` is dropped. -/
def new (fs : FS) (task : ProjectTask) (project : ProjectMeta)
    (login : String) : Except GradeErr GradingOption :=
  let repo := repoPath project login
  match fs.canon repo with
  | none => .error .noDelivery
  | some _ => .ok ⟨task, project, repo⟩

/-- Mirror of `GradingOption::mk_file_list`: joins every name onto `root`; when
`prune_missing` is set, keeps only the joined paths that are regular files. -/
def mk_file_list (fs : FS) (file_names : List FilePath) (root : FilePath)
    (prune_missing : Bool) : List FilePath :=
  file_names.filterMap (fun item =>
    let item_absolute := root.push item
    if !prune_missing || fs.isFile item_absolute then some item_absolute
    else none)

/-- The mandatory-file list `grade` builds: task-relative mandatory files
joined onto the submission root, no pruning. -/
def mandatoryList (g : GradingOption) (fs : FS) : List FilePath :=
  mk_file_list fs g.task.mandatory_files g.repo false

/-- The optional-file list `grade` builds: task-relative optional files joined
onto the submission root, pruned to existing regular files. -/
def optionalList (g : GradingOption) (fs : FS) : List FilePath :=
  mk_file_list fs g.task.optional_files g.repo true

/-- The test-file list `grade` builds: task-relative test files joined onto
the grader folder, no pruning. -/
def testList (g : GradingOption) (fs : FS) : List FilePath :=
  mk_file_list fs g.task.test_files g.project.grader_folder false

/-- The argument vector `GradingOption::compile` hands to the compiler: the
three `.args(..)` calls append `compile_args_base`, then the files, then
`compile_args_tail`, in that order. -/
def compileArgs (g : GradingOption) (files : List FilePath) : List String :=
  g.project.compile_args_base ++ files.map FilePath.render
    ++ g.project.compile_args_tail

/-- Mirror of `GradingOption::compile`: spawn `gcc` with arguments
`compile_args_base ++ files ++ compile_args_tail`, wait, and map spawn
failure, wait failure and non-zero exit to errors; exit 0 is `Ok(())`. -/
def compile (g : GradingOption) (env : Env) (files : List FilePath) :
    Except GradeErr Unit :=
  let beh := env.runProcess "gcc" (g.compileArgs files)
  if beh.spawnOk = false then .error .compileSpawn
  else if beh.waitOk = false then .error .compileWait
  else if beh.exitCode ≠ 0 then .error (.compileNonZero beh.exitCode)
  else .ok ()

/-- Mirror of `GradingOption::run_tests`: spawn `./a.out --verbose`, wait, and map spawn
failure, wait failure and non-zero exit to errors; exit 0 is `Ok(())`. -/
def run_tests (g : GradingOption) (env : Env) : Except GradeErr Unit :=
  let beh := env.runProcess "./a.out" ["--verbose"]
  if beh.spawnOk = false then .error .testsSpawn
  else if beh.waitOk = false then .error .testsWait
  else if beh.exitCode ≠ 0 then .error (.testsNonZero beh.exitCode)
  else .ok ()

/-- Mirror of `GradingOption::grade`.  First component: the grading result.  Second
component: the file lists passed to `compile`, in order (the observable
compile attempts).  Mirrors the source: fail on missing mandatory files
before any compile; first attempt `mandatory ++ test`; on failure, retry with
`mandatory ++ optional ++ test` only when the pruned optional list is
non-empty, otherwise return the original error; then run the tests. -/
def grade (g : GradingOption) (env : Env) :
    Except GradeErr Unit × List (List FilePath) :=
  if ((g.mandatoryList env.fs).filter (fun item => !env.fs.isFile item)).isEmpty then
    match g.compile env (g.mandatoryList env.fs ++ g.testList env.fs) with
    | .ok _ => (g.run_tests env, [g.mandatoryList env.fs ++ g.testList env.fs])
    | .error err =>
      if (g.optionalList env.fs).isEmpty then
        (.error err, [g.mandatoryList env.fs ++ g.testList env.fs])
      else
        match g.compile env
            (g.mandatoryList env.fs ++ g.optionalList env.fs ++ g.testList env.fs) with
        | .ok _ => (g.run_tests env,
            [g.mandatoryList env.fs ++ g.testList env.fs,
             g.mandatoryList env.fs ++ g.optionalList env.fs ++ g.testList env.fs])
        | .error err2 => (.error err2,
            [g.mandatoryList env.fs ++ g.testList env.fs,
             g.mandatoryList env.fs ++ g.optionalList env.fs ++ g.testList env.fs])
  else
    (.error (.missingMandatoryFiles
        ((g.mandatoryList env.fs).filter (fun item => !env.fs.isFile item))
        g.task.name), [])

end GradingOption

/-- The command-line options (`Opt` in the source). -/
structure Opt where
  spec_file : FilePath
  delivery_folder : Option FilePath
  grader_folder : Option FilePath
  login : String
deriving DecidableEq, Repr

/-- The two `if let Some` override blocks of `main`: a delivery-folder or
grader-folder option replaces the value loaded from the spec file. -/
def applyOverrides (opt : Opt) (meta : ProjectMeta) : ProjectMeta :=
  let meta1 := match opt.delivery_folder with
    | some d => { meta with delivery_folder := d }
    | none => meta
  match opt.grader_folder with
  | some g2 => { meta1 with grader_folder := g2 }
  | none => meta1

/-- The per-task loop of `main`: for each task in order, build a
`GradingOption` with the literal login `"michel"` — the `?` after
`.context("building grader")` aborts the whole run on failure — then call
`grade` and discard its error (the `eprintln!` is commented out in the
source).  First component: the grade outcomes of the tasks that were
attempted, in order.  Second component: the error that aborted the run, if
any. -/
def runTasks (env : Env) (meta : ProjectMeta) :
    List ProjectTask → List (Except GradeErr Unit) × Option GradeErr
  | [] => ([], none)
  | task :: rest =>
    match GradingOption.new env.fs task meta "michel" with
    | .error e => ([], some e)
    | .ok gopt =>
      let outcome := (gopt.grade env).1
      let next := runTasks env meta rest
      (outcome :: next.1, next.2)

/-- Tail of `main` after the spec file has been loaded and parsed: apply the
command-line overrides, then run the task loop.  Note that `opt.login` is
never consulted. -/
def mainAfterLoad (env : Env) (opt : Opt) (spec : ProjectSpec) :
    List (Except GradeErr Unit) × Option GradeErr :=
  runTasks env (applyOverrides opt spec.meta) spec.tasks

/-! ## Concrete fixtures

Small closed instances of the data model, used by witnesses, counterexamples
and failing-input evaluations below. -/

/-- A task with no files at all. -/
def task0 : ProjectTask := ⟨"task zero", [], [], []⟩

/-- A task with one mandatory file and nothing else. -/
def taskA : ProjectTask := ⟨"task a", [⟨false, ["a.c"]⟩], [], []⟩

/-- A task with one mandatory file and one test file. -/
def taskT : ProjectTask := ⟨"task t", [⟨false, ["a.c"]⟩], [], [⟨false, ["t.c"]⟩]⟩

/-- A task with one optional file and nothing else. -/
def taskO : ProjectTask := ⟨"task o", [], [⟨false, ["b.c"]⟩], []⟩

/-- Fixed project metadata with empty compiler argument lists. -/
def meta0 : ProjectMeta :=
  ⟨"proj", "code", ⟨false, ["deliv"]⟩, ⟨false, ["graderdir"]⟩, [], []⟩

/-- The submission root `main` actually computes: `deliv/michel/code`. -/
def repoMichel : FilePath := GradingOption.repoPath meta0 "michel"

/-- The submission root for login `bob`. -/
def repoBob : FilePath := GradingOption.repoPath meta0 "bob"

/-- The joined mandatory file of `taskA`/`taskT` under `repoMichel`. -/
def mandA : FilePath := FilePath.push repoMichel ⟨false, ["a.c"]⟩

/-- The joined optional file of `taskO` under `repoMichel`. -/
def optB : FilePath := FilePath.push repoMichel ⟨false, ["b.c"]⟩

/-- Process oracle where every invocation spawns, waits and exits 0. -/
def procAllOk : String → List String → ProcBehavior := fun _ _ => ⟨true, true, 0⟩

/-- The empty filesystem: nothing exists, canonicalization always fails. -/
def fs0 : FS := ⟨fun _ => false, fun _ => false, fun _ => none⟩

/-- Empty filesystem, all processes succeed. -/
def env0 : Env := ⟨fs0, procAllOk⟩

/-- Filesystem holding michel's submission root (a directory) and the
mandatory file `a.c` inside it; canonicalization is the identity on the
existing paths. -/
def fsMichel : FS :=
  { isFile := fun p => decide (p = mandA)
    isDir := fun p => decide (p = repoMichel)
    canon := fun p => if p = mandA ∨ p = repoMichel then some p else none }

/-- Environment pairing `fsMichel` with all processes succeeding. -/
def envMichel : Env := ⟨fsMichel, procAllOk⟩

/-- Filesystem holding michel's submission root and the optional file `b.c`
inside it. -/
def fsB : FS :=
  { isFile := fun p => decide (p = optB)
    isDir := fun p => decide (p = repoMichel)
    canon := fun p => if p = optB ∨ p = repoMichel then some p else none }

/-- Environment pairing `fsB` with a process oracle that exits 1 on an empty argument vector and
0 otherwise: the first compile attempt of `taskO` (no files at all) fails,
the retry (one file) succeeds. -/
def envRetry : Env :=
  ⟨fsB, fun _ args => if args.isEmpty then ⟨true, true, 1⟩ else ⟨true, true, 0⟩⟩

/-- Execution context for `task0` at michel's root. -/
def gop0 : GradingOption := ⟨task0, meta0, repoMichel⟩

/-- Execution context for `taskA` at michel's root. -/
def gopA : GradingOption := ⟨taskA, meta0, repoMichel⟩

/-- Execution context for `taskT` at michel's root. -/
def gopT : GradingOption := ⟨taskT, meta0, repoMichel⟩

/-- Execution context for `taskO` at michel's root. -/
def gopO : GradingOption := ⟨taskO, meta0, repoMichel⟩

/-- Where a symlinked `deliv/bob/code` really points. -/
def canonTarget : FilePath := ⟨true, ["nfs", "deliv", "bob", "code"]⟩

/-- Filesystem where `deliv/bob/code` is a symlink to `canonTarget`:
canonicalization maps both to `canonTarget`. -/
def fsSymlink : FS :=
  { isFile := fun _ => false
    isDir := fun p => decide (p = repoBob ∨ p = canonTarget)
    canon := fun p =>
      if p = repoBob then some canonTarget
      else if p = canonTarget then some canonTarget
      else none }

/-- Filesystem where `deliv/bob/code` exists as a regular file (not a
directory): canonicalization succeeds on it. -/
def fsFileAtBob : FS :=
  { isFile := fun p => decide (p = repoBob)
    isDir := fun _ => false
    canon := fun p => if p = repoBob then some p else none }

/-- A one-task project spec. -/
def specOne : ProjectSpec := ⟨meta0, [task0]⟩

/-- Command-line options supplying login `alice` and no overrides. -/
def optAlice : Opt := ⟨⟨false, ["spec.toml"]⟩, none, none, "alice"⟩

/-! ## Basic lemmas about `mk_file_list` -/

/-- Unfolding lemma: `mk_file_list` is the join map followed by the prune filter. -/
theorem GradingOption.mk_file_list_eq (fs : FS) (names : List FilePath)
    (root : FilePath) (prune : Bool) :
    GradingOption.mk_file_list fs names root prune
      = (names.map (fun item => root.push item)).filter
          (fun p => !prune || fs.isFile p) := by
  induction names with
  | nil => rfl
  | cons a l ih =>
    simp only [GradingOption.mk_file_list] at ih
    simp only [GradingOption.mk_file_list, List.filterMap_cons, List.map_cons,
      List.filter_cons]
    rw [ih]
    cases h : (!prune || fs.isFile (root.push a)) <;> simp [h]

/-- Claim C10: for every input list of relative paths and every root,
`mk_file_list` preserves the relative order of its input (its output is a
sublist of the in-order joined inputs); and with `prune_missing = false` it
returns exactly one output per input, each equal to the root joined with the
corresponding input, regardless of the filesystem state. -/
theorem mk_file_list_order_and_no_prune_total (fs : FS) (names : List FilePath)
    (root : FilePath) (prune : Bool) :
    (GradingOption.mk_file_list fs names root prune).Sublist
        (names.map (fun item => root.push item))
    ∧ GradingOption.mk_file_list fs names root false
        = names.map (fun item => root.push item) := by
  constructor
  · rw [GradingOption.mk_file_list_eq]
    exact List.filter_sublist _
  · rw [GradingOption.mk_file_list_eq]
    simp

/-- Claim C9: in `grade`'s path resolution, the optional list contains exactly
the task-relative optional paths joined onto the submission root that exist as
regular files (absent ones silently dropped, never an error), while the
mandatory and test lists are plain joins onto the submission root and the
grader folder respectively, with no existence filtering. -/
theorem grade_path_resolution_lists (g : GradingOption) (fs : FS) :
    (∀ p, p ∈ g.optionalList fs ↔
      (fs.isFile p = true ∧ ∃ rel ∈ g.task.optional_files, p = g.repo.push rel))
    ∧ g.optionalList fs
        = (g.task.optional_files.map (fun rel => g.repo.push rel)).filter fs.isFile
    ∧ g.mandatoryList fs = g.task.mandatory_files.map (fun rel => g.repo.push rel)
    ∧ g.testList fs
        = g.task.test_files.map (fun rel => g.project.grader_folder.push rel) := by
  have hopt : g.optionalList fs
      = (g.task.optional_files.map (fun rel => g.repo.push rel)).filter fs.isFile := by
    rw [GradingOption.optionalList, GradingOption.mk_file_list_eq]
    simp
  refine ⟨?_, hopt, ?_, ?_⟩
  · intro p
    rw [hopt]
    simp only [List.mem_filter, List.mem_map]
    constructor
    · rintro ⟨⟨rel, hrel, hp⟩, hfile⟩
      exact ⟨hfile, rel, hrel, hp.symm⟩
    · rintro ⟨hfile, rel, hrel, hp⟩
      exact ⟨⟨rel, hrel, hp.symm⟩, hfile⟩
  · rw [GradingOption.mandatoryList, GradingOption.mk_file_list_eq]
    simp
  · rw [GradingOption.testList, GradingOption.mk_file_list_eq]
    simp

/-- Claim C8: `compile` invokes the compiler with arguments in the exact order
`compile_args_base ++ files ++ compile_args_tail` (its result depends on the
process oracle only at that exact invocation), returns an error exactly when
the process fails to spawn, fails to be waited on, or exits with non-zero
status, and a zero exit status yields success with no return value. -/
theorem compile_invocation_contract (g : GradingOption) (env env2 : Env)
    (files : List FilePath)
    (hagree : env.runProcess "gcc" (g.compileArgs files)
      = env2.runProcess "gcc" (g.compileArgs files)) :
    g.compile env files = g.compile env2 files
    ∧ ((∃ e, g.compile env files = Except.error e)
        ↔ ¬((env.runProcess "gcc" (g.compileArgs files)).spawnOk = true
            ∧ (env.runProcess "gcc" (g.compileArgs files)).waitOk = true
            ∧ (env.runProcess "gcc" (g.compileArgs files)).exitCode = 0))
    ∧ (((env.runProcess "gcc" (g.compileArgs files)).spawnOk = true
        ∧ (env.runProcess "gcc" (g.compileArgs files)).waitOk = true
        ∧ (env.runProcess "gcc" (g.compileArgs files)).exitCode = 0)
        → g.compile env files = Except.ok ()) := by
  refine ⟨by simp only [GradingOption.compile, hagree], ?_, ?_⟩
  · cases hbeh : env.runProcess "gcc" (g.compileArgs files) with
    | mk s w c =>
      simp only [GradingOption.compile, hbeh]
      cases s <;> cases w <;> by_cases hc : c = 0 <;> simp [hc]
  · rintro ⟨hs, hw, hc⟩
    simp [GradingOption.compile, hs, hw, hc]

/-- Witness for C8 at a concrete grading context, environment and file list:
the agreement hypothesis holds trivially and the zero-exit invocation
compiles successfully. -/
theorem compile_invocation_contract_witness :
    (envRetry.runProcess "gcc" (gopO.compileArgs [optB])
      = envRetry.runProcess "gcc" (gopO.compileArgs [optB]))
    ∧ gopO.compile envRetry [optB] = Except.ok () :=
  ⟨rfl, (compile_invocation_contract gopO envRetry envRetry [optB] rfl).2.2
    (by decide)⟩

/-- Claim C6: for every task with a non-empty mandatory list where at least one
mandatory file is absent from the submission root, `grade` fails with the
missing-mandatory-files error carrying exactly the missing joined paths (and
the task name), and the compiler is never invoked (the compile-attempt trace
is empty). -/
theorem grade_missing_mandatory_no_compile (g : GradingOption) (env : Env)
    (hne : g.task.mandatory_files ≠ [])
    (hmiss : (g.mandatoryList env.fs).filter (fun p => !env.fs.isFile p) ≠ []) :
    (g.grade env).1 = Except.error (GradeErr.missingMandatoryFiles
        ((g.mandatoryList env.fs).filter (fun p => !env.fs.isFile p)) g.task.name)
    ∧ (g.grade env).2 = [] := by
  obtain ⟨x, xs, hfilter⟩ := List.exists_cons_of_ne_nil hmiss
  constructor <;> simp [GradingOption.grade, hfilter]

/-- Witness for C6: `taskA` declares one mandatory file, the empty filesystem
does not contain it, and grading fails without any compile attempt. -/
theorem grade_missing_mandatory_no_compile_witness :
    (taskA.mandatory_files ≠ [])
    ∧ ((gopA.mandatoryList env0.fs).filter (fun p => !env0.fs.isFile p) ≠ [])
    ∧ ((gopA.grade env0).1 = Except.error (GradeErr.missingMandatoryFiles
        ((gopA.mandatoryList env0.fs).filter (fun p => !env0.fs.isFile p))
        taskA.name)
      ∧ (gopA.grade env0).2 = []) :=
  ⟨by decide, by decide,
    grade_missing_mandatory_no_compile gopA env0 (by decide) (by decide)⟩

/-- Claim C5: when no mandatory file is missing, the first compile attempt uses
`mandatory_files ++ test_files` (optional files excluded); if it succeeds no
retry happens; if it fails and the resolved (pruned) optional list is
non-empty, exactly one retry occurs with
`mandatory_files ++ optional_files ++ test_files`; if the resolved optional
list is empty, no retry occurs and the original failure is propagated. -/
theorem grade_two_phase_retry (g : GradingOption) (env : Env)
    (hok : (g.mandatoryList env.fs).filter (fun p => !env.fs.isFile p) = []) :
    ((g.grade env).2.head?
      = some (g.mandatoryList env.fs ++ g.testList env.fs))
    ∧ (g.compile env (g.mandatoryList env.fs ++ g.testList env.fs)
        = Except.ok ()
        → (g.grade env).2 = [g.mandatoryList env.fs ++ g.testList env.fs])
    ∧ (∀ e, g.compile env (g.mandatoryList env.fs ++ g.testList env.fs)
        = Except.error e
        → (g.optionalList env.fs = []
            → g.grade env
              = (Except.error e, [g.mandatoryList env.fs ++ g.testList env.fs]))
          ∧ (g.optionalList env.fs ≠ []
            → (g.grade env).2
              = [g.mandatoryList env.fs ++ g.testList env.fs,
                 g.mandatoryList env.fs ++ g.optionalList env.fs
                   ++ g.testList env.fs])) := by
  refine ⟨?_, ?_, ?_⟩
  · simp only [GradingOption.grade, hok, List.isEmpty_nil, eq_self_iff_true,
      if_true]
    cases hc : g.compile env (g.mandatoryList env.fs ++ g.testList env.fs) with
    | ok u => rfl
    | error e =>
      cases hoe : (g.optionalList env.fs).isEmpty with
      | true => rfl
      | false =>
        cases hc2 : g.compile env (g.mandatoryList env.fs
            ++ g.optionalList env.fs ++ g.testList env.fs) with
        | ok u => rfl
        | error e2 => rfl
  · intro hc
    simp only [GradingOption.grade, hok, List.isEmpty_nil, eq_self_iff_true,
      if_true, hc]
  · intro e hc
    refine ⟨?_, ?_⟩
    · intro hoe
      have ho : (g.optionalList env.fs).isEmpty = true := by rw [hoe]; rfl
      simp only [GradingOption.grade, hok, List.isEmpty_nil, eq_self_iff_true,
        if_true, hc, ho]
    · intro hone
      obtain ⟨y, ys, hys⟩ := List.exists_cons_of_ne_nil hone
      have ho : (g.optionalList env.fs).isEmpty = false := by rw [hys]; rfl
      simp only [GradingOption.grade, hok, List.isEmpty_nil, eq_self_iff_true,
        if_true, hc, ho, Bool.false_eq_true, if_false]
      cases hc2 : g.compile env (g.mandatoryList env.fs
          ++ g.optionalList env.fs ++ g.testList env.fs) with
      | ok u => rfl
      | error e2 => rfl

/-- Witness for C5 exercising the retry branch: `taskO` has no mandatory or
test files and one present optional file; the first compile attempt (empty
file list) exits 1, so exactly one retry occurs with the optional file. -/
theorem grade_two_phase_retry_witness :
    ((gopO.mandatoryList envRetry.fs).filter
        (fun p => !envRetry.fs.isFile p) = [])
    ∧ (gopO.compile envRetry
        (gopO.mandatoryList envRetry.fs ++ gopO.testList envRetry.fs)
        = Except.error (GradeErr.compileNonZero 1))
    ∧ (gopO.optionalList envRetry.fs ≠ [])
    ∧ (gopO.grade envRetry).2
        = [gopO.mandatoryList envRetry.fs ++ gopO.testList envRetry.fs,
           gopO.mandatoryList envRetry.fs ++ gopO.optionalList envRetry.fs
             ++ gopO.testList envRetry.fs] :=
  ⟨by decide, by rfl, by decide,
    ((grade_two_phase_retry gopO envRetry (by decide)).2.2
      (GradeErr.compileNonZero 1) (by rfl)).2 (by decide)⟩

/-- Claim C7, amended: path resolution joins `delivery_folder`, `login` and
`code_name` in that order, and `GradingOption` construction fails exactly
when canonicalization of the joined path fails; `canonicalize` succeeds on
any existing path, so no is-a-directory check is performed. -/
theorem new_join_order_and_failure_condition (fs : FS) (task : ProjectTask)
    (project : ProjectMeta) (login : String) :
    (GradingOption.new fs task project login = Except.error GradeErr.noDelivery
      ↔ fs.canon ((project.delivery_folder.push (FilePath.ofString login)).push
          (FilePath.ofString project.code_name)) = none)
    ∧ (∀ g, GradingOption.new fs task project login = Except.ok g →
        g.repo = (project.delivery_folder.push (FilePath.ofString login)).push
          (FilePath.ofString project.code_name)) := by
  simp only [GradingOption.new, GradingOption.repoPath]
  cases hc : fs.canon ((project.delivery_folder.push (FilePath.ofString login)).push
      (FilePath.ofString project.code_name)) with
  | none => simp
  | some q => simp

/-- Witness for C7 at a concrete filesystem and metadata: the empty
filesystem canonicalizes nothing, so construction fails. -/
theorem new_join_order_and_failure_condition_witness :
    GradingOption.new fs0 task0 meta0 "michel" = Except.error GradeErr.noDelivery
      ↔ fs0.canon ((meta0.delivery_folder.push (FilePath.ofString "michel")).push
          (FilePath.ofString meta0.code_name)) = none :=
  (new_join_order_and_failure_condition fs0 task0 meta0 "michel").1

/-- Counterexample for claim C7: in a well-formed filesystem where `deliv/bob/code`
exists as a regular file and not as a directory, construction succeeds, so
"fails whenever the path is not a directory" does not hold of the code. -/
theorem new_succeeds_on_non_directory_counterexample :
    fsFileAtBob.WF
    ∧ fsFileAtBob.isDir repoBob = false
    ∧ fsFileAtBob.isFile repoBob = true
    ∧ GradingOption.new fsFileAtBob task0 meta0 "bob"
        = Except.ok ⟨task0, meta0, repoBob⟩ := by
  refine ⟨?_, by decide, by decide, by rfl⟩
  intro p
  by_cases h : p = repoBob <;> simp [fsFileAtBob, h]

/-- Claim C3, amended: when construction succeeds, the stored submission root
is the plain join `delivery_folder / login / code_name`; the canonicalized
path returned by `canonicalize` is discarded, canonicalization serving only
as an existence check. -/
theorem new_stores_uncanonicalized_root (fs : FS) (task : ProjectTask)
    (project : ProjectMeta) (login : String) (g : GradingOption)
    (h : GradingOption.new fs task project login = Except.ok g) :
    g.repo = GradingOption.repoPath project login
    ∧ g.task = task ∧ g.project = project := by
  cases hc : fs.canon (GradingOption.repoPath project login) with
  | none => simp [GradingOption.new, hc] at h
  | some q =>
    simp only [GradingOption.new, hc] at h
    cases h
    exact ⟨rfl, rfl, rfl⟩

/-- Witness for C3's amended statement: construction over the symlinked root
succeeds and stores the plain join. -/
theorem new_stores_uncanonicalized_root_witness :
    (GradingOption.new fsSymlink taskA meta0 "bob"
        = Except.ok ⟨taskA, meta0, repoBob⟩)
    ∧ (⟨taskA, meta0, repoBob⟩ : GradingOption).repo
        = GradingOption.repoPath meta0 "bob"
    ∧ (⟨taskA, meta0, repoBob⟩ : GradingOption).task = taskA
    ∧ (⟨taskA, meta0, repoBob⟩ : GradingOption).project = meta0 :=
  ⟨by rfl, new_stores_uncanonicalized_root fsSymlink taskA meta0 "bob" _ (by rfl)⟩

/-- Counterexample for claim C3: `deliv/bob/code` is a symlink whose canonicalized
form is the distinct path `/nfs/deliv/bob/code`; construction succeeds and
stores the uncanonicalized join, not the canonicalized form. -/
theorem new_discards_canonicalization_counterexample :
    fsSymlink.canon repoBob = some canonTarget
    ∧ GradingOption.new fsSymlink task0 meta0 "bob"
        = Except.ok ⟨task0, meta0, repoBob⟩
    ∧ repoBob ≠ canonTarget :=
  ⟨by rfl, by rfl, by decide⟩

/-- Claim C4, failing-input evaluation: `taskT`'s test file `t.c` is absent —
`fsMichel` is well formed, contains neither the grader-folder test path nor
the raw relative path that the never-called helper
`are_garding_files_present` checks (the helper returns `false`) — the
compiler and the test binary exit 0, and `grade` nevertheless succeeds: the
program performs no test-file existence check. -/
theorem grade_succeeds_despite_absent_test_file :
    FS.WF fsMichel
    ∧ fsMichel.isFile (FilePath.push meta0.grader_folder ⟨false, ["t.c"]⟩) = false
    ∧ taskT.are_garding_files_present fsMichel = false
    ∧ (gopT.grade envMichel).1 = Except.ok () := by
  refine ⟨?_, by decide, by decide, by rfl⟩
  intro p
  by_cases h1 : p = mandA
  · simp [fsMichel, h1]
  · by_cases h2 : p = repoMichel <;> simp [fsMichel, h1, h2]

/-- Claim C2, failing-input evaluation: with `--login alice`, alice's submission
root does not canonicalize in this filesystem while michel's does, yet the
whole run succeeds — `main` passes the literal `"michel"` to
`GradingOption::new` and never reads `opt.login`. -/
theorem main_ignores_cli_login :
    optAlice.login = "alice"
    ∧ fsMichel.canon (GradingOption.repoPath meta0 "alice") = none
    ∧ fsMichel.canon (GradingOption.repoPath meta0 "michel")
        = some (GradingOption.repoPath meta0 "michel")
    ∧ mainAfterLoad envMichel optAlice specOne = ([Except.ok ()], none) :=
  ⟨rfl, by rfl, by rfl, by rfl⟩

/-- Claim C1, amended: task-level errors from `grade` are caught at the
orchestrator boundary (silently discarded) and do not prevent the remaining
tasks from being attempted — whenever the submission root canonicalizes,
every task in the list is graded in order; but an error while building a
task's `GradingOption` (`SubmissionNotFound`) aborts the whole run, like a
spec load failure. -/
theorem orchestrator_error_propagation (env : Env) (meta : ProjectMeta)
    (tasks : List ProjectTask) :
    ((∃ q, env.fs.canon (GradingOption.repoPath meta "michel") = some q) →
      runTasks env meta tasks
        = (tasks.map (fun t =>
            ((⟨t, meta, GradingOption.repoPath meta "michel"⟩ :
              GradingOption).grade env).1),
           none))
    ∧ ((env.fs.canon (GradingOption.repoPath meta "michel") = none
        ∧ tasks ≠ []) →
      runTasks env meta tasks = ([], some GradeErr.noDelivery)) := by
  constructor
  · rintro ⟨q, hq⟩
    induction tasks with
    | nil => rfl
    | cons t rest ih =>
      simp only [runTasks, GradingOption.new, hq, List.map_cons, ih]
  · rintro ⟨hnone, hne⟩
    obtain ⟨t, rest, htr⟩ := List.exists_cons_of_ne_nil hne
    subst htr
    simp [runTasks, GradingOption.new, hnone]

/-- Witness for C1's amended statement: michel's root canonicalizes in
`fsMichel`, and the single-task run attempts (and records) that task's grade
outcome without aborting. -/
theorem orchestrator_error_propagation_witness :
    (∃ q, envMichel.fs.canon (GradingOption.repoPath meta0 "michel") = some q)
    ∧ runTasks envMichel meta0 [task0]
        = ([((⟨task0, meta0, GradingOption.repoPath meta0 "michel"⟩ :
            GradingOption).grade envMichel).1], none) :=
  ⟨⟨repoMichel, by rfl⟩,
    (orchestrator_error_propagation envMichel meta0 [task0]).1 ⟨repoMichel, by rfl⟩⟩

/-- Counterexample for claim C1: with a well-formed filesystem in which the
submission root does not exist, the failure to build the first task's
`GradingOption` aborts the whole run — no grade outcome is recorded for any
task, so the remaining task is never attempted, contrary to the claim that
only pre-loop errors abort the process. -/
theorem submission_error_aborts_run_counterexample :
    fs0.WF
    ∧ runTasks env0 meta0 [task0, taskA] = ([], some GradeErr.noDelivery) := by
  refine ⟨?_, by rfl⟩
  intro p
  simp [fs0]

end Butternut
